import Mathlib

/-!
Shallow embedding of the Moodify backend (`src/app.py`) and verification of the
specification claims about it.

External effects are modelled as pure oracles:
* the catalog search endpoint is a function `S : String → ℕ → List Track`
  (query, page start ↦ returned tracks);
* the audio-features endpoint is a function `F : String → Option Features`
  (track id ↦ features, `none` for missing or null entries);
* randomness (`random.randint`, `random.choice`) is an extra natural-number
  draw passed in, reduced modulo the size of the sampled range;
* real numbers (`valence`, `arousal`, times) are embedded as rationals.
-/

namespace Moodify

/-- Models `random.randint(lo, hi)` (both ends inclusive): the draw `r` is reduced
into the range `[lo, hi]`. -/
def randint (lo hi r : ℕ) : ℕ := lo + r % (hi + 1 - lo)

/-- Models `random.choice(xs)`: the draw `r` is reduced modulo the length of the
list; `none` models the `IndexError` raised on an empty list. -/
def pyChoice {α : Type} (xs : List α) (r : ℕ) : Option α := xs[r % xs.length]?

/-- Python exception kinds relevant to this program. -/
inductive PyExc
  | nameError
  | typeError
  | valueError
  | indexError
deriving DecidableEq

/-- Digit list to number, for the model of the Python builtin `float`. -/
def digitsVal (cs : List Char) : ℕ := cs.foldl (fun n c => 10 * n + (c.toNat - 48)) 0

/-- Whitespace removal at both ends of a character list, modelling the Python
string method `strip()`. -/
def pyStrip (cs : List Char) : List Char :=
  ((cs.dropWhile Char.isWhitespace).reverse.dropWhile Char.isWhitespace).reverse

/-- The Python string method `strip()` on a `String`. -/
def pyStripStr (s : String) : String := ⟨pyStrip s.toList⟩

/-- Models the Python builtin `float` applied to a string: optional surrounding
whitespace, an optional sign, then decimal digits with an optional fractional
part (the exponent, `inf` and `nan` forms are omitted from the model); `none`
stands for a `ValueError`. -/
def pyFloatOfString (s : String) : Option ℚ :=
  let cs := pyStrip s.toList
  let signCore : ℚ × List Char :=
    match cs with
    | '-' :: rest => (-1, rest)
    | '+' :: rest => (1, rest)
    | _ => (1, cs)
  let ipart := signCore.2.takeWhile Char.isDigit
  let rest := signCore.2.dropWhile Char.isDigit
  match rest with
  | [] => if ipart ≠ [] then some (signCore.1 * (digitsVal ipart : ℚ)) else none
  | '.' :: fpart =>
      if (ipart ≠ [] ∨ fpart ≠ []) ∧ fpart.all Char.isDigit then
        some (signCore.1 *
          ((digitsVal ipart : ℚ) + (digitsVal fpart : ℚ) / 10 ^ fpart.length))
      else none
  | _ => none

/-- A JSON value as it can appear for the `valence` / `arousal` fields. -/
inductive JsonValue
  | jnum (q : ℚ)
  | jstr (s : String)
  | jbool (b : Bool)
  | jnull
deriving DecidableEq

/-- Models the Python builtin `float` applied to a JSON-decoded value. -/
def pyFloat : JsonValue → Except PyExc ℚ
  | .jnum q => .ok q
  | .jbool b => .ok (if b then 1 else 0)
  | .jstr s =>
      match pyFloatOfString s with
      | some q => .ok q
      | none => .error .valueError
  | .jnull => .error .typeError

/-! ## Token cache (`get_spotify_token`, lines 55-74) -/

/-- The process-wide token cache (`spotify_token_cache`). -/
structure TokenCache where
  access_token : Option String
  expires_at : ℚ
deriving DecidableEq

/-- The initial value of `spotify_token_cache` (line 55). -/
def spotify_token_cache_init : TokenCache := { access_token := none, expires_at := 0 }

/-- Body of a successful token-endpoint response. -/
structure TokenResponse where
  status_code : ℕ
  access_token : String
  expires_in : Option ℚ

/-- Models line 64, `requests.post(url, ...)`: the name `url` is undefined (the
local variable is `TOKEN_URL`), so Python raises a `NameError` while evaluating
the arguments, before any HTTP request is issued. -/
def postTokenRequest : Except PyExc TokenResponse := .error .nameError

/-- Embedding of `get_spotify_token` (lines 57-74). Input: the cache and the
current time (`time.time()`). Output: the returned token (`none` for Python
`None`), the cache after the call, and the number of outbound token-exchange
requests actually issued. -/
def get_spotify_token (cache : TokenCache) (now : ℚ) :
    Option String × TokenCache × ℕ :=
  if now < cache.expires_at then
    (cache.access_token, cache, 0)
  else
    match postTokenRequest with
    | .error _ => (none, cache, 0)
    | .ok data =>
        if data.status_code ≠ 200 then (none, cache, 1)
        else
          (some data.access_token,
           { access_token := some data.access_token,
             expires_at := now + data.expires_in.getD 3600 - 60 }, 1)

/-! ## Query building (`get_query_from_metrics`, `GENRE_MAPPING`, lines 76-85,
and the query section of `spotify_recommend`, lines 148-160) -/

/-- Embedding of `get_query_from_metrics` (lines 76-79). -/
def get_query_from_metrics (valence arousal : ℚ) : String :=
  if valence < 0.4 then (if arousal < 0.4 then "sad" else "angry")
  else if valence > 0.6 then (if arousal < 0.4 then "chill" else "party")
  else "pop"

/-- Embedding of `GENRE_MAPPING` (lines 81-85); `none` models absence of the key. -/
def GENRE_MAPPING : String → Option String
  | "Mandopop" => some "mandopop"
  | "K-Pop" => some "k-pop"
  | "J-Pop" => some "j-pop"
  | "Jazz" => some "jazz"
  | "Lofi" => some "lo-fi"
  | "R&B" => some "r-n-b"
  | "Classical" => some "classical"
  | "Electronic" => some "electronic"
  | _ => none

/-- Embedding of lines 148-160 of `spotify_recommend`: from the (already
stripped) text, mood coordinates and genre choice, build `final_query` and
`random_offset`; `rOff` is the draw consumed by `random.randint(0, 50)`. -/
def buildQuery (custom_text : String) (tv te : ℚ) (genre_ui : String) (rOff : ℕ) :
    String × ℕ :=
  let bq : String × ℕ :=
    if custom_text ≠ "" then (custom_text, 0)
    else (get_query_from_metrics tv te, randint 0 50 rOff)
  if genre_ui ≠ "All" then
    match GENRE_MAPPING genre_ui with
    | some genre_tag => (bq.1 ++ " genre:" ++ genre_tag, bq.2)
    | none => bq
  else bq

/-! ## Tracks, features and the fallback ladder (lines 162-189) -/

/-- A catalog track as used by the handler: `album_image` stands for
`album.images[0].url` and `spotify_url` for `external_urls.spotify`. -/
structure Track where
  id : String
  name : String
  artists : List String
  spotify_url : String
  album_image : String
  preview_url : String
deriving DecidableEq

/-- Audio features of a track. -/
structure Features where
  valence : ℚ
  energy : ℚ
deriving DecidableEq

/-- Embedding of the search-with-fallback block (lines 167-189). `S` is the
search endpoint, `rG` the draw consumed by `random.randint(0, 50)` in the genre
fallback. Returns the final track list together with the list of
(query, page start) attempts issued, in order. -/
def searchLadder (S : String → ℕ → List Track) (final_query : String)
    (random_offset : ℕ) (genre_ui : String) (rG : ℕ) :
    List Track × List (String × ℕ) :=
  let s1 : List Track × List (String × ℕ) :=
    (S final_query random_offset, [(final_query, random_offset)])
  let s2 : List Track × List (String × ℕ) :=
    if s1.1 = [] ∧ 0 < random_offset then
      (S final_query 0, s1.2 ++ [(final_query, 0)])
    else s1
  let s3 : List Track × List (String × ℕ) :=
    if s2.1 = [] ∧ genre_ui ≠ "All" ∧ (GENRE_MAPPING genre_ui).isSome then
      let q := "genre:" ++ (GENRE_MAPPING genre_ui).getD ""
      (S q (randint 0 50 rG), s2.2 ++ [(q, randint 0 50 rG)])
    else s2
  if s3.1 = [] then (S "Pop" 0, s3.2 ++ [("Pop", 0)]) else s3

/-- First non-empty list among a sequence of attempt results ([] if all empty). -/
def firstNonEmpty : List (List Track) → List Track
  | [] => []
  | l :: ls => if l = [] then firstNonEmpty ls else l

/-- Modelled from the claim wording of the fallback ladder: the attempt results,
in order — primary search, the same query at page start 0, the genre-only
search when a known genre filter was active, and the hardcoded "Pop" search. -/
def fallbackAttempts (S : String → ℕ → List Track) (final_query : String)
    (random_offset : ℕ) (genre_ui : String) (rG : ℕ) : List (List Track) :=
  [S final_query random_offset, S final_query 0] ++
    (if genre_ui ≠ "All" ∧ (GENRE_MAPPING genre_ui).isSome then
      [S ("genre:" ++ (GENRE_MAPPING genre_ui).getD "") (randint 0 50 rG)]
    else []) ++ [S "Pop" 0]

/-- Modelled from the claim wording: apply the fallback attempts in order and
stop at the first non-empty result. -/
def specSearchFallback (S : String → ℕ → List Track) (final_query : String)
    (random_offset : ℕ) (genre_ui : String) (rG : ℕ) : List Track :=
  firstNonEmpty (fallbackAttempts S final_query random_offset genre_ui rG)

/-! ## Candidate scoring and selection (lines 191-221) -/

/-- Squared Euclidean distance in the 2D mood plane (the quantity under the
square root on line 211); ordering by it coincides with ordering by the
distance itself. -/
def dist2 (f : Features) (tv te : ℚ) : ℚ :=
  (f.valence - tv) ^ 2 + (f.energy - te) ^ 2

/-- Euclidean distance of line 211, as a real number. -/
noncomputable def distR (f : Features) (tv te : ℚ) : ℝ :=
  Real.sqrt (((f.valence : ℝ) - (tv : ℝ)) ^ 2 + ((f.energy : ℝ) - (te : ℝ)) ^ 2)

/-- Models `feat_map` (lines 202-205): features are requested for the ids of the
first 20 tracks; a track id outside that batch has no entry. -/
def featLookupFrom (F : String → Option Features) (tracks : List Track) :
    String → Option Features :=
  fun i => if ((tracks.take 20).map Track.id).contains i then F i else none

/-- Models `weighted_tracks` (lines 207-214): candidates paired with their
features, in search order, candidates without features dropped. -/
def weightedOf (F : String → Option Features) (tracks : List Track) :
    List (Track × Features) :=
  tracks.filterMap (fun t => (featLookupFrom F tracks t.id).map (fun f => (t, f)))

/-- Models line 217: `weighted_tracks` sorted ascending by distance (Python
`list.sort` is stable, as is `List.mergeSort`). -/
def sortedOf (F : String → Option Features) (tracks : List Track) (tv te : ℚ) :
    List (Track × Features) :=
  (weightedOf F tracks).mergeSort (fun a b => decide (dist2 a.2 tv te ≤ dist2 b.2 tv te))

/-- Embedding of the `best_match` selection (lines 191-221). Returns the chosen
track together with its attached features (`none` when the code leaves the
`features` key unset, i.e. the featureless fallback branch); `rChoice` is the
draw consumed by `random.choice`. -/
def selectBestMatch (custom_text : String) (tracks : List Track)
    (F : String → Option Features) (tv te : ℚ) (rChoice : ℕ) :
    Option (Track × Option Features) :=
  if custom_text ≠ "" then
    match pyChoice (tracks.take 5) rChoice with
    | none => none
    | some t => some (t, some ((F t.id).getD { valence := 1/2, energy := 1/2 }))
  else
    if weightedOf F tracks = [] then
      (pyChoice (tracks.take 5) rChoice).map (fun t => (t, none))
    else
      (pyChoice ((sortedOf F tracks tv te).take 5) rChoice).map
        (fun p => (p.1, some p.2))

/-! ## Request parsing (lines 141-146) -/

/-- The JSON body of a `/spotify/recommend` request, restricted to the fields the
handler reads. -/
structure RequestBody where
  user_id : Option String
  valence : Option JsonValue
  arousal : Option JsonValue
  genre : Option String
  text : Option String

/-- The parsed inputs of lines 142-146. -/
structure MoodInput where
  user_id : Option String
  target_valence : ℚ
  target_energy : ℚ
  genre_ui : String
  custom_text : String
deriving DecidableEq

/-- Embedding of lines 142-146: `data.get` with defaults, the `float`
conversions (whose exceptions propagate — these lines are outside the `try`
block), and `.strip()` on the text. -/
def parseMood (b : RequestBody) : Except PyExc MoodInput := do
  let tv ← pyFloat (b.valence.getD (.jnum (1/2)))
  let te ← pyFloat (b.arousal.getD (.jnum (1/2)))
  .ok { user_id := b.user_id, target_valence := tv, target_energy := te,
        genre_ui := b.genre.getD "All", custom_text := pyStripStr (b.text.getD "") }

/-! ## History storage (lines 223-245) -/

/-- A document of the `mood_records` collection; `rid` models the unique `_id`. -/
structure HistoryRecord where
  rid : ℕ
  user_id : String
  user_input : String
  mood_tag : String
  valence : ℚ
  energy : ℚ
  song_name : String
  artist : String
  image_url : String
  spotify_url : String
  timestamp : ℕ
deriving DecidableEq

/-- The record inserted on lines 225-236. -/
def mkHistoryRecord (newId : ℕ) (uid : String) (custom_text genre_ui : String)
    (tv te : ℚ) (bm : Track) (ts : ℕ) : HistoryRecord :=
  { rid := newId, user_id := uid,
    user_input := if custom_text ≠ "" then custom_text else "Slider Mode",
    mood_tag := if genre_ui ≠ "All" then genre_ui else "General",
    valence := tv, energy := te,
    song_name := bm.name, artist := bm.artists.headD "",
    image_url := bm.album_image, spotify_url := bm.spotify_url,
    timestamp := ts }

/-- Embedding of the insert-then-trim sequence (lines 225-245): append the new
record, count the documents of that user, and if the count exceeds 40 delete the
oldest `count - 40` of them, ordered by timestamp ascending. -/
def recordAndTrim (store : List HistoryRecord) (rec : HistoryRecord) :
    List HistoryRecord :=
  let store1 := store ++ [rec]
  let count := (store1.filter (fun r => decide (r.user_id = rec.user_id))).length
  if 40 < count then
    let sorted :=
      (store1.filter (fun r => decide (r.user_id = rec.user_id))).mergeSort
        (fun a b => decide (a.timestamp ≤ b.timestamp))
    let ids_to_delete := (sorted.take (count - 40)).map HistoryRecord.rid
    store1.filter (fun r => decide (r.rid ∉ ids_to_delete))
  else store1

/-! ## The handler (`spotify_recommend`, lines 136-260) -/

/-- The success payload of lines 250-257. -/
structure RecommendOk where
  name : String
  artists : String
  spotify_url : String
  album_image : String
  preview_url : String
  match_info : Option Features
deriving DecidableEq

/-- An HTTP outcome of the handler: a JSON success payload, a JSON error with a
status code, or an exception that escapes the handler (Flask then produces a
generic 500). -/
inductive Resp
  | ok (p : RecommendOk)
  | errJson (code : ℕ) (msg : String)
  | unhandled (e : PyExc)
deriving DecidableEq

/-- The history write-and-trim step as an effect: given the store and the record
to insert, either the new store or a storage error. The non-failing behaviour is
`fun s r => .ok (recordAndTrim s r)`. -/
def okWrite : List HistoryRecord → HistoryRecord → Except String (List HistoryRecord) :=
  fun s r => .ok (recordAndTrim s r)

/-- Embedding of the `/spotify/recommend` handler (lines 136-260). Oracles and
draws: `S` search, `F` audio features, `rOff` the query draw, `rG` the genre
fallback draw, `rChoice` the selection draw, `write` the history effect, `newId`
and `ts` the `_id` and `datetime.now()` of the inserted record. Returns the
response and the store after the call. -/
def spotify_recommend (cache : TokenCache) (now : ℚ) (body : RequestBody)
    (S : String → ℕ → List Track) (F : String → Option Features)
    (rOff rG rChoice : ℕ)
    (write : List HistoryRecord → HistoryRecord → Except String (List HistoryRecord))
    (store : List HistoryRecord) (newId ts : ℕ) :
    Resp × List HistoryRecord :=
  match (get_spotify_token cache now).1 with
  | none => (.errJson 500 "Token error", store)
  | some _ =>
    match parseMood body with
    | .error e => (.unhandled e, store)
    | .ok m =>
      let q := buildQuery m.custom_text m.target_valence m.target_energy m.genre_ui rOff
      let tracks := (searchLadder S q.1 q.2 m.genre_ui rG).1
      if tracks = [] then (.errJson 404 "No tracks found", store)
      else
        match selectBestMatch m.custom_text tracks F m.target_valence m.target_energy rChoice with
        | none => (.unhandled .indexError, store)
        | some (bm, feats) =>
          let store2 :=
            match m.user_id with
            | none => store
            | some uid =>
              if uid ≠ "" then
                match write store
                    (mkHistoryRecord newId uid m.custom_text m.genre_ui
                      m.target_valence m.target_energy bm ts) with
                | .ok s => s
                | .error _ => store
              else store
          (.ok { name := bm.name, artists := String.intercalate ", " bm.artists,
                 spotify_url := bm.spotify_url, album_image := bm.album_image,
                 preview_url := bm.preview_url, match_info := feats }, store2)

/-! ## Concrete inputs used to instantiate the theorems -/

/-- A concrete track with the given id. -/
def ctrack (i : String) : Track :=
  { id := i, name := "T" ++ i, artists := ["A"], spotify_url := "u",
    album_image := "img", preview_url := "p" }

/-- Six concrete candidates. -/
def exTracks : List Track :=
  [ctrack "1", ctrack "2", ctrack "3", ctrack "4", ctrack "5", ctrack "6"]

/-- Concrete audio features: at target (0, 0) the distances of the six tracks
are 0.1, 0.05, 0.9, 0.05, 0.2 and 0.01 — the example of the specification. -/
def exF : String → Option Features
  | "1" => some { valence := 0.1, energy := 0 }
  | "2" => some { valence := 0.05, energy := 0 }
  | "3" => some { valence := 0.9, energy := 0 }
  | "4" => some { valence := 0.05, energy := 0 }
  | "5" => some { valence := 0.2, energy := 0 }
  | "6" => some { valence := 0.01, energy := 0 }
  | _ => none

/-- A search oracle on which only the "Pop" query has results. -/
def exS : String → ℕ → List Track := fun q _ => if q = "Pop" then [ctrack "p"] else []

/-- A search oracle that always returns the six concrete candidates. -/
def exS2 : String → ℕ → List Track := fun _ _ => exTracks

/-- A concrete request body: free text "lofi", mood target (0, 0), no user. -/
def exBody : RequestBody :=
  { user_id := none, valence := some (.jnum 0), arousal := some (.jnum 0),
    genre := none, text := some "lofi" }

/-- A concrete request body whose `valence` field is not parsable as a float. -/
def bodyAbc : RequestBody :=
  { user_id := none, valence := some (.jstr "abc"), arousal := none,
    genre := none, text := none }

/-- A token cache holding a valid token until time 1000. -/
def exCache : TokenCache := { access_token := some "tok", expires_at := 1000 }

/-- A concrete history record for user "u": its id and timestamp are both `i`. -/
def wrec (i : ℕ) : HistoryRecord :=
  { rid := i, user_id := "u", user_input := "", mood_tag := "", valence := 0,
    energy := 0, song_name := "", artist := "", image_url := "",
    spotify_url := "", timestamp := i }

/-- The records of the inserting user after the insert, in store order. -/
def userRecords (store : List HistoryRecord) (rec : HistoryRecord) : List HistoryRecord :=
  (store ++ [rec]).filter (fun r => decide (r.user_id = rec.user_id))

/-- The records of the inserting user, sorted ascending by timestamp — the
order in which the trim step deletes. -/
def sortedUserRecords (store : List HistoryRecord) (rec : HistoryRecord) : List HistoryRecord :=
  (userRecords store rec).mergeSort (fun a b => decide (a.timestamp ≤ b.timestamp))

/-! ## Helper lemmas -/

theorem randint_le_hi (lo hi r : ℕ) (h : lo ≤ hi) :
    lo ≤ randint lo hi r ∧ randint lo hi r ≤ hi := by
  have hpos : 0 < hi + 1 - lo := by omega
  have := Nat.mod_lt r hpos
  unfold randint
  omega

theorem pyChoice_mem {α : Type} {xs : List α} {r : ℕ} {a : α}
    (h : pyChoice xs r = some a) : a ∈ xs := by
  unfold pyChoice at h
  rw [List.getElem?_eq_some_iff] at h
  obtain ⟨h1, h2⟩ := h
  exact h2 ▸ List.getElem_mem h1

theorem pyChoice_isSome {α : Type} (xs : List α) (r : ℕ) (h : xs ≠ []) :
    ∃ a, pyChoice xs r = some a ∧ a ∈ xs := by
  have hl : 0 < xs.length := List.length_pos.mpr h
  have hlt : r % xs.length < xs.length := Nat.mod_lt _ hl
  exact ⟨xs[r % xs.length], by simp [pyChoice, List.getElem?_eq_getElem hlt],
    List.getElem_mem hlt⟩

theorem pyChoice_surj {α : Type} {xs : List α} {a : α} (h : a ∈ xs) :
    ∃ r, pyChoice xs r = some a := by
  obtain ⟨i, hi, hEq⟩ := List.getElem_of_mem h
  refine ⟨i, ?_⟩
  simp [pyChoice, Nat.mod_eq_of_lt hi, List.getElem?_eq_getElem hi, hEq]

theorem GENRE_MAPPING_All : GENRE_MAPPING "All" = none := rfl

theorem firstNonEmpty_eq_nil (ls : List (List Track)) :
    firstNonEmpty ls = [] ↔ ∀ l ∈ ls, l = [] := by
  induction ls with
  | nil => simp [firstNonEmpty]
  | cons a ls ih =>
    by_cases h : a = []
    · simp [firstNonEmpty, h, ih]
    · simp [firstNonEmpty, h]

theorem searchLadder_fst_eq (S : String → ℕ → List Track) (fq : String) (ro : ℕ)
    (g : String) (rG : ℕ) :
    (searchLadder S fq ro g rG).1 = specSearchFallback S fq ro g rG := by
  rcases Nat.eq_zero_or_pos ro with hro | hro
  · subst hro
    by_cases h1 : S fq 0 = []
    · by_cases hg : g ≠ "All" ∧ (GENRE_MAPPING g).isSome
      · by_cases h3 : S ("genre:" ++ (GENRE_MAPPING g).getD "") (randint 0 50 rG) = []
        · simp only [searchLadder, specSearchFallback, fallbackAttempts, firstNonEmpty,
            h1, hg, h3]
          by_cases h4 : S "Pop" 0 = [] <;>
            simp [searchLadder, specSearchFallback, fallbackAttempts, firstNonEmpty,
              h1, hg, h3, h4]
        · simp [searchLadder, specSearchFallback, fallbackAttempts, firstNonEmpty,
            h1, hg, h3]
      · by_cases h4 : S "Pop" 0 = [] <;>
          simp [searchLadder, specSearchFallback, fallbackAttempts, firstNonEmpty,
            h1, hg, h4]
    · simp [searchLadder, specSearchFallback, fallbackAttempts, firstNonEmpty, h1]
  · by_cases h1 : S fq ro = []
    · by_cases h2 : S fq 0 = []
      · by_cases hg : g ≠ "All" ∧ (GENRE_MAPPING g).isSome
        · by_cases h3 : S ("genre:" ++ (GENRE_MAPPING g).getD "") (randint 0 50 rG) = []
          · by_cases h4 : S "Pop" 0 = [] <;>
              simp [searchLadder, specSearchFallback, fallbackAttempts, firstNonEmpty,
                h1, h2, hg, h3, h4, hro]
          · simp [searchLadder, specSearchFallback, fallbackAttempts, firstNonEmpty,
              h1, h2, hg, h3, hro]
        · by_cases h4 : S "Pop" 0 = [] <;>
            simp [searchLadder, specSearchFallback, fallbackAttempts, firstNonEmpty,
              h1, h2, hg, h4, hro]
      · simp [searchLadder, specSearchFallback, fallbackAttempts, firstNonEmpty,
          h1, h2, hro]
    · simp [searchLadder, specSearchFallback, fallbackAttempts, firstNonEmpty, h1]

/-! ## Claims -/

/-- C1: when the primary search is empty the fallback ladder is applied in
order, stopping at the first non-empty result — same query at page start 0,
genre-only query when a known genre filter was active, then the hardcoded
"Pop" query — and the request yields the 404 "No tracks found" outcome exactly
when all attempts return empty; in particular with genre "All" and the primary
and page-start-0 searches empty, the "Pop" search is still attempted. -/
theorem claim_C1_fallback (S : String → ℕ → List Track) (fq : String) (ro : ℕ)
    (g : String) (rG : ℕ) :
    (searchLadder S fq ro g rG).1 = specSearchFallback S fq ro g rG ∧
    ((searchLadder S fq ro g rG).1 = [] ↔
      (S fq ro = [] ∧ S fq 0 = [] ∧
        (∀ tag, GENRE_MAPPING g = some tag →
          S ("genre:" ++ tag) (randint 0 50 rG) = []) ∧
        S "Pop" 0 = [])) ∧
    (g = "All" → S fq ro = [] → S fq 0 = [] →
      ("Pop", 0) ∈ (searchLadder S fq ro g rG).2) ∧
    (∀ (cache : TokenCache) (now : ℚ) (body : RequestBody)
        (F : String → Option Features) (rOff rChoice : ℕ)
        (write : List HistoryRecord → HistoryRecord → Except String (List HistoryRecord))
        (store : List HistoryRecord) (newId ts : ℕ) (m : MoodInput),
      (get_spotify_token cache now).1.isSome = true →
      parseMood body = .ok m →
      ((spotify_recommend cache now body S F rOff rG rChoice write store newId ts).1
          = .errJson 404 "No tracks found" ↔
        (searchLadder S
          (buildQuery m.custom_text m.target_valence m.target_energy m.genre_ui rOff).1
          (buildQuery m.custom_text m.target_valence m.target_energy m.genre_ui rOff).2
          m.genre_ui rG).1 = [])) := by
  refine ⟨searchLadder_fst_eq S fq ro g rG, ?_, ?_, ?_⟩
  · rw [searchLadder_fst_eq]
    unfold specSearchFallback
    rw [firstNonEmpty_eq_nil]
    constructor
    · intro h
      refine ⟨h _ (by simp [fallbackAttempts]), h _ (by simp [fallbackAttempts]),
        ?_, h _ (by simp [fallbackAttempts])⟩
      intro tag htag
      have hgA : g ≠ "All" := by
        intro hEq
        rw [hEq, GENRE_MAPPING_All] at htag
        exact Option.noConfusion htag
      apply h
      simp [fallbackAttempts, htag, hgA]
    · rintro ⟨ha, hb, hc, hd⟩ l hl
      by_cases hg : g ≠ "All" ∧ (GENRE_MAPPING g).isSome
      · obtain ⟨tag, htag⟩ := Option.isSome_iff_exists.mp hg.2
        simp [fallbackAttempts, hg, htag] at hl
        rcases hl with h | h | h | h <;> subst h
        exacts [ha, hb, hc tag htag, hd]
      · simp [fallbackAttempts, hg] at hl
        rcases hl with h | h | h <;> subst h
        exacts [ha, hb, hd]
  · intro hAll h1 h2
    subst hAll
    rcases Nat.eq_zero_or_pos ro with hro | hro
    · subst hro
      simp [searchLadder, h1]
    · simp [searchLadder, h1, h2, hro]
  · intro cache now body F rOff rChoice write store newId ts m htok hparse
    obtain ⟨tok, htok2⟩ := Option.isSome_iff_exists.mp htok
    unfold spotify_recommend
    simp only [htok2, hparse]
    by_cases hT : (searchLadder S
        (buildQuery m.custom_text m.target_valence m.target_energy m.genre_ui rOff).1
        (buildQuery m.custom_text m.target_valence m.target_energy m.genre_ui rOff).2
        m.genre_ui rG).1 = []
    · simp [hT]
    · simp only [hT, if_neg, ite_false]
      cases hsel : selectBestMatch m.custom_text
          (searchLadder S
            (buildQuery m.custom_text m.target_valence m.target_energy m.genre_ui rOff).1
            (buildQuery m.custom_text m.target_valence m.target_energy m.genre_ui rOff).2
            m.genre_ui rG).1 F m.target_valence m.target_energy rChoice with
      | none => simp [hsel, hT]
      | some p =>
        obtain ⟨bm, feats⟩ := p
        simp [hsel, hT]

/-- C1 witness: on a search oracle where only "Pop" has results, with genre
"All" and a primary search at page start 5 returning empty, the "Pop" attempt
is issued and the code ladder agrees with the specified ladder. -/
theorem claim_C1_witness :
    (searchLadder exS "sad" 5 "All" 0).1 = specSearchFallback exS "sad" 5 "All" 0 ∧
    ("Pop", 0) ∈ (searchLadder exS "sad" 5 "All" 0).2 := by
  have h := claim_C1_fallback exS "sad" 5 "All" 0
  exact ⟨h.1, h.2.2.1 rfl (by decide) (by decide)⟩

/-- C3: for valence and arousal in [0, 1], with no free text and no known genre,
the query builder yields exactly the quadrant keyword (thresholds 0.4 and 0.6:
sad / angry / chill / party, otherwise pop), the keyword is used alone as the
query, and the page start is a random integer in [0, 50]. -/
theorem claim_C3_quadrant_query (v a : ℚ) (r : ℕ)
    (hv0 : 0 ≤ v) (hv1 : v ≤ 1) (ha0 : 0 ≤ a) (ha1 : a ≤ 1) :
    (v < 0.4 → a < 0.4 → get_query_from_metrics v a = "sad") ∧
    (v < 0.4 → 0.4 ≤ a → get_query_from_metrics v a = "angry") ∧
    (0.6 < v → a < 0.4 → get_query_from_metrics v a = "chill") ∧
    (0.6 < v → 0.4 ≤ a → get_query_from_metrics v a = "party") ∧
    (0.4 ≤ v → v ≤ 0.6 → get_query_from_metrics v a = "pop") ∧
    buildQuery "" v a "All" r = (get_query_from_metrics v a, randint 0 50 r) ∧
    randint 0 50 r ≤ 50 := by
  refine ⟨?_, ?_, ?_, ?_, ?_, ?_, (randint_le_hi 0 50 r (by norm_num)).2⟩
  · intro h1 h2; simp [get_query_from_metrics, h1, h2]
  · intro h1 h2; simp [get_query_from_metrics, h1, not_lt.mpr h2]
  · intro h1 h2
    have hv : ¬ v < 0.4 := by linarith
    simp [get_query_from_metrics, hv, h1, h2]
  · intro h1 h2
    have hv : ¬ v < 0.4 := by linarith
    simp [get_query_from_metrics, hv, h1, not_lt.mpr h2]
  · intro h1 h2
    simp [get_query_from_metrics, not_lt.mpr h1, not_lt.mpr h2]
  · simp [buildQuery]

/-- C3 witness: at valence = arousal = 0.2 with draw 7, the built query is
("sad", 7). -/
theorem claim_C3_witness :
    get_query_from_metrics 0.2 0.2 = "sad" ∧
    buildQuery "" 0.2 0.2 "All" 7 = ("sad", 7) := by
  have h := claim_C3_quadrant_query 0.2 0.2 7 (by norm_num) (by norm_num)
    (by norm_num) (by norm_num)
  have hsad : get_query_from_metrics 0.2 0.2 = "sad" :=
    h.1 (by norm_num) (by norm_num)
  refine ⟨hsad, ?_⟩
  rw [h.2.2.2.2.2.1, hsad]
  rfl

/-- C7 counterexample: with no free text, mood (0.5, 0.5) and genre "Jazz", the
built query is "pop genre:jazz" (mood keyword plus genre tag), not the claimed
"genre:jazz year:2020-2025", and with draw 11 the page start is 11 > 10. -/
theorem claim_C7_counterexample :
    buildQuery "" 0.5 0.5 "Jazz" 3 = ("pop genre:jazz", 3) ∧
    (buildQuery "" 0.5 0.5 "Jazz" 3).1 ≠ "genre:jazz year:2020-2025" ∧
    (buildQuery "" 0.5 0.5 "Jazz" 11).2 = 11 := by
  have hq : get_query_from_metrics 0.5 0.5 = "pop" := by
    unfold get_query_from_metrics
    rw [if_neg (by norm_num), if_neg (by norm_num)]
  have hGM : GENRE_MAPPING "Jazz" = some "jazz" := rfl
  have hb : ∀ r : ℕ, buildQuery "" 0.5 0.5 "Jazz" r
      = ("pop" ++ " genre:" ++ "jazz", randint 0 50 r) := by
    intro r
    simp [buildQuery, hq, hGM]
  refine ⟨?_, ?_, ?_⟩
  · rw [hb 3]; decide
  · rw [hb 3]; decide
  · rw [hb 11]; decide

/-- C7 amended: with no free text and a known genre filter, the built query is
the quadrant mood keyword suffixed with " genre:(mapped genre)" (no year
constraint) and the page start is a random integer in [0, 50]; an unrecognized
genre string behaves exactly like genre "All" (no genre selected). -/
theorem claim_C7_amended (v a : ℚ) (g tag gu : String) (r : ℕ)
    (hg : GENRE_MAPPING g = some tag) (hu : GENRE_MAPPING gu = none) :
    buildQuery "" v a g r =
      (get_query_from_metrics v a ++ " genre:" ++ tag, randint 0 50 r) ∧
    buildQuery "" v a gu r = buildQuery "" v a "All" r ∧
    randint 0 50 r ≤ 50 := by
  have hgA : g ≠ "All" := by
    intro h
    rw [h, GENRE_MAPPING_All] at hg
    exact Option.noConfusion hg
  refine ⟨?_, ?_, (randint_le_hi 0 50 r (by norm_num)).2⟩
  · simp [buildQuery, hgA, hg]
  · by_cases hguA : gu = "All"
    · rw [hguA]
    · simp [buildQuery, hguA, hu]

/-- C7 amended witness: genre "Jazz" at mood (0.5, 0.5), draw 3. -/
theorem claim_C7_witness :
    GENRE_MAPPING "Jazz" = some "jazz" ∧
    buildQuery "" 0.5 0.5 "Jazz" 3 = ("pop genre:jazz", randint 0 50 3) ∧
    buildQuery "" 0.5 0.5 "Rock" 3 = buildQuery "" 0.5 0.5 "All" 3 := by
  have h := claim_C7_amended 0.5 0.5 "Jazz" "jazz" "Rock" 3 rfl rfl
  refine ⟨rfl, ?_, h.2.1⟩
  have hq : get_query_from_metrics 0.5 0.5 = "pop" := by
    unfold get_query_from_metrics
    rw [if_neg (by norm_num), if_neg (by norm_num)]
  rw [h.1, hq]
  decide

/-- C8: with non-empty free text the built query is the free text, suffixed with
" genre:(mapped genre)" exactly when a known genre filter is selected, and the
page start is 0 (no randomization). -/
theorem claim_C8_freetext (t : String) (ht : t ≠ "") (v a : ℚ) (g gu : String)
    (r : ℕ) (tag : String)
    (hg : GENRE_MAPPING g = some tag) (hu : GENRE_MAPPING gu = none) :
    buildQuery t v a g r = (t ++ " genre:" ++ tag, 0) ∧
    buildQuery t v a gu r = (t, 0) ∧
    buildQuery t v a "All" r = (t, 0) := by
  have hgA : g ≠ "All" := by
    intro h
    rw [h, GENRE_MAPPING_All] at hg
    exact Option.noConfusion hg
  refine ⟨?_, ?_, ?_⟩
  · simp [buildQuery, ht, hgA, hg]
  · by_cases hguA : gu = "All"
    · rw [hguA]; simp [buildQuery, ht]
    · simp [buildQuery, ht, hguA, hu]
  · simp [buildQuery, ht]

/-- C8 witness: free text "lofi beats" with genre "Lofi" yields
"lofi beats genre:lo-fi" at page start 0. -/
theorem claim_C8_witness :
    buildQuery "lofi beats" 0.5 0.5 "Lofi" 9 = ("lofi beats genre:lo-fi", 0) := by
  have h := claim_C8_freetext "lofi beats" (by decide) 0.5 0.5 "Lofi" "Rock" 9
    "lo-fi" rfl rfl
  rw [h.1]
  decide

/-- C5: whenever `get_spotify_token` is called at or past the cached expiry, the
undefined name `url` makes the fetch raise, so the call returns `None` with the
cache unchanged and zero outbound requests; consequently every
`/spotify/recommend` request at or past expiry (including the very first one,
whose cache is the initial one with expiry 0) answers 500 with "Token error". -/
theorem claim_C5_token_bug (cache : TokenCache) (now : ℚ)
    (h : cache.expires_at ≤ now) (body : RequestBody)
    (S : String → ℕ → List Track) (F : String → Option Features)
    (rOff rG rChoice : ℕ)
    (write : List HistoryRecord → HistoryRecord → Except String (List HistoryRecord))
    (store : List HistoryRecord) (newId ts : ℕ) :
    get_spotify_token cache now = (none, cache, 0) ∧
    spotify_recommend cache now body S F rOff rG rChoice write store newId ts
      = (.errJson 500 "Token error", store) := by
  have h1 : get_spotify_token cache now = (none, cache, 0) := by
    unfold get_spotify_token
    rw [if_neg (not_lt.mpr h)]
    rfl
  refine ⟨h1, ?_⟩
  unfold spotify_recommend
  rw [h1]

/-- C5 witness: the very first request of the process (initial cache, time 0)
answers 500 with "Token error" and leaves the cache unchanged. -/
theorem claim_C5_witness :
    get_spotify_token spotify_token_cache_init 0 = (none, spotify_token_cache_init, 0) ∧
    spotify_recommend spotify_token_cache_init 0 exBody exS2 exF 0 0 0 okWrite [] 0 0
      = (.errJson 500 "Token error", []) :=
  claim_C5_token_bug spotify_token_cache_init 0 (le_refl 0) exBody exS2 exF 0 0 0
    okWrite [] 0 0

/-- C6 (code bug): at the failing input — the initial cache, current time 100,
i.e. any call at or past expiry — the code issues zero client-credentials
exchanges (the undefined name `url` raises before the request is sent) and
caches nothing, while the claim requires exactly one exchange and, on success,
a cached expiry of now + lifetime − 60. -/
theorem claim_C6_code_bug :
    get_spotify_token spotify_token_cache_init 100
      = (none, spotify_token_cache_init, 0) ∧
    ((get_spotify_token spotify_token_cache_init 100).2.2 = 0 ∧
      (get_spotify_token spotify_token_cache_init 100).2.1
        = spotify_token_cache_init) := by
  refine ⟨?_, ?_, ?_⟩ <;> rfl

/-- C9 counterexample: a request whose `valence` field is the string "abc"
(unparsable as a float) does not get the claimed 0.5 default — the parse
raises a ValueError (lines 141-146 are outside the `try` block, so the request
fails), and no `MoodInput` is produced. -/
theorem claim_C9_counterexample :
    parseMood bodyAbc = .error .valueError := rfl

/-- C9 amended: valence and arousal default to 0.5 only when the field is
absent; a present but unparsable value raises (the request fails with a server
error instead of defaulting); the free text is stripped of surrounding
whitespace; and text that is empty after stripping is treated exactly as
absent text. -/
theorem claim_C9_parsing (b : RequestBody) (s : String) :
    (b.valence = none → b.arousal = none →
      parseMood b = .ok { user_id := b.user_id, target_valence := 1/2,
                          target_energy := 1/2, genre_ui := b.genre.getD "All",
                          custom_text := pyStripStr (b.text.getD "") }) ∧
    (∀ m, parseMood b = .ok m → m.custom_text = pyStripStr (b.text.getD "")) ∧
    (b.text = some s → pyStripStr s = "" →
      parseMood b = parseMood { b with text := none }) ∧
    (b.valence = some (.jstr s) → pyFloatOfString s = none →
      parseMood b = .error .valueError) := by
  refine ⟨?_, ?_, ?_, ?_⟩
  · intro h1 h2
    simp [parseMood, h1, h2, pyFloat, bind, Except.bind]
  · intro m hm
    cases h1 : pyFloat (b.valence.getD (.jnum (1/2))) with
    | error e =>
      simp only [parseMood, h1, bind, Except.bind] at hm
      exact Except.noConfusion hm
    | ok tv =>
      cases h2 : pyFloat (b.arousal.getD (.jnum (1/2))) with
      | error e =>
        simp only [parseMood, h1, h2, bind, Except.bind] at hm
        exact Except.noConfusion hm
      | ok te =>
        simp only [parseMood, h1, h2, bind, Except.bind, Except.ok.injEq] at hm
        rw [← hm]
  · intro h1 h2
    simp [parseMood, h1, h2, show pyStripStr "" = "" from rfl]
  · intro h1 h2
    simp [parseMood, h1, pyFloat, h2, bind, Except.bind]

/-- C9 witness: absent valence and arousal default to 0.5, and the text
"  hi  " is stripped to "hi". -/
theorem claim_C9_witness :
    parseMood { user_id := none, valence := none, arousal := none, genre := none,
                text := some "  hi  " }
      = .ok { user_id := none, target_valence := 1/2, target_energy := 1/2,
              genre_ui := "All", custom_text := "hi" } := by
  have h := (claim_C9_parsing
    { user_id := none, valence := none, arousal := none, genre := none,
      text := some "  hi  " } "x").1 rfl rfl
  exact h.trans (by rfl)

/-- C10: a failure of the history write-and-trim step never changes the
response — whatever the write effect does (success or storage error), the
handler returns exactly the response of the non-failing write. -/
theorem claim_C10_history_failure_swallowed (cache : TokenCache) (now : ℚ)
    (body : RequestBody) (S : String → ℕ → List Track)
    (F : String → Option Features) (rOff rG rChoice : ℕ)
    (write : List HistoryRecord → HistoryRecord → Except String (List HistoryRecord))
    (store : List HistoryRecord) (newId ts : ℕ) :
    (spotify_recommend cache now body S F rOff rG rChoice write store newId ts).1
      = (spotify_recommend cache now body S F rOff rG rChoice okWrite store newId ts).1 := by
  unfold spotify_recommend
  cases (get_spotify_token cache now).1 with
  | none => rfl
  | some tok =>
    cases parseMood body with
    | error e => rfl
    | ok m =>
      dsimp only
      split
      · rfl
      · cases selectBestMatch m.custom_text
          (searchLadder S
            (buildQuery m.custom_text m.target_valence m.target_energy m.genre_ui rOff).1
            (buildQuery m.custom_text m.target_valence m.target_energy m.genre_ui rOff).2
            m.genre_ui rG).1 F m.target_valence m.target_energy rChoice with
        | none => rfl
        | some p => rfl

theorem filter_drop_of_nodup (t d : List HistoryRecord)
    (hnd : ((t ++ d).map HistoryRecord.rid).Nodup) :
    (t ++ d).filter (fun r => decide (r.rid ∉ t.map HistoryRecord.rid)) = d := by
  rw [List.filter_append]
  have h1 : t.filter (fun r => decide (r.rid ∉ t.map HistoryRecord.rid)) = [] := by
    rw [List.filter_eq_nil_iff]
    intro a ha
    simp [List.mem_map_of_mem _ ha]
  have h2 : d.filter (fun r => decide (r.rid ∉ t.map HistoryRecord.rid)) = d := by
    rw [List.filter_eq_self]
    intro a ha
    rw [List.map_append, List.nodup_append] at hnd
    simp only [decide_eq_true_eq]
    intro hmem
    exact hnd.2.2 hmem (List.mem_map_of_mem _ ha)
  rw [h1, h2, List.nil_append]

/-- C4: after each insert-and-trim, the inserting user keeps
min(previous + 1, 40) records — in particular at most 40, and inserting a 41st
leaves exactly 40; no trim happens at or below 40; above 40 the retained user
records are exactly the final part of the timestamp-ascending order (the oldest
count − 40 are the ones deleted), every deleted record being no newer than
every retained one. Distinct Mongo ids are assumed. -/
theorem claim_C4_history_bound (store : List HistoryRecord) (rec : HistoryRecord)
    (hnodup : ((store ++ [rec]).map HistoryRecord.rid).Nodup) :
    ((recordAndTrim store rec).filter (fun r => decide (r.user_id = rec.user_id))).length
      = min (userRecords store rec).length 40 ∧
    ((userRecords store rec).length ≤ 40 → recordAndTrim store rec = store ++ [rec]) ∧
    (40 < (userRecords store rec).length →
      ((recordAndTrim store rec).filter
          (fun r => decide (r.user_id = rec.user_id))).Perm
        ((sortedUserRecords store rec).drop ((userRecords store rec).length - 40))) ∧
    (∀ x ∈ (sortedUserRecords store rec).take ((userRecords store rec).length - 40),
      ∀ y ∈ (sortedUserRecords store rec).drop ((userRecords store rec).length - 40),
        x.timestamp ≤ y.timestamp) := by
  have hperm : (sortedUserRecords store rec).Perm (userRecords store rec) :=
    List.mergeSort_perm _ _
  have hnd_u : ((userRecords store rec).map HistoryRecord.rid).Nodup :=
    List.Nodup.sublist ((List.filter_sublist _).map HistoryRecord.rid) hnodup
  have hnd_s : ((sortedUserRecords store rec).map HistoryRecord.rid).Nodup :=
    ((hperm.map _).nodup_iff).mpr hnd_u
  have hlen_s : (sortedUserRecords store rec).length = (userRecords store rec).length :=
    hperm.length_eq
  have hrt_le : (userRecords store rec).length ≤ 40 →
      recordAndTrim store rec = store ++ [rec] := by
    intro h
    unfold userRecords at h
    unfold recordAndTrim
    rw [if_neg (not_lt.mpr h)]
  have hrt_gt : 40 < (userRecords store rec).length →
      recordAndTrim store rec = (store ++ [rec]).filter
        (fun r => decide (r.rid ∉ ((sortedUserRecords store rec).take
          ((userRecords store rec).length - 40)).map HistoryRecord.rid)) := by
    intro h
    have h' := h
    unfold userRecords at h'
    unfold recordAndTrim
    rw [if_pos h']
    rfl
  have hfd : (sortedUserRecords store rec).filter
      (fun r => decide (r.rid ∉ ((sortedUserRecords store rec).take
        ((userRecords store rec).length - 40)).map HistoryRecord.rid))
      = (sortedUserRecords store rec).drop ((userRecords store rec).length - 40) := by
    have hsplit := List.take_append_drop ((userRecords store rec).length - 40)
      (sortedUserRecords store rec)
    have hnd' : (((sortedUserRecords store rec).take ((userRecords store rec).length - 40) ++
        (sortedUserRecords store rec).drop ((userRecords store rec).length - 40)).map
          HistoryRecord.rid).Nodup := by
      rw [hsplit]; exact hnd_s
    have := filter_drop_of_nodup
      ((sortedUserRecords store rec).take ((userRecords store rec).length - 40))
      ((sortedUserRecords store rec).drop ((userRecords store rec).length - 40)) hnd'
    rw [hsplit] at this
    exact this
  have hperm3 : 40 < (userRecords store rec).length →
      ((recordAndTrim store rec).filter
          (fun r => decide (r.user_id = rec.user_id))).Perm
        ((sortedUserRecords store rec).drop ((userRecords store rec).length - 40)) := by
    intro h
    rw [hrt_gt h, List.filter_filter]
    have hcomm : (store ++ [rec]).filter
        (fun a => decide (a.user_id = rec.user_id) &&
          decide (a.rid ∉ ((sortedUserRecords store rec).take
            ((userRecords store rec).length - 40)).map HistoryRecord.rid))
        = (userRecords store rec).filter
          (fun a => decide (a.rid ∉ ((sortedUserRecords store rec).take
            ((userRecords store rec).length - 40)).map HistoryRecord.rid)) := by
      unfold userRecords
      rw [List.filter_filter]
      exact List.filter_congr (fun x _ => Bool.and_comm _ _)
    rw [hcomm, ← hfd]
    exact (hperm.filter _).symm
  refine ⟨?_, hrt_le, hperm3, ?_⟩
  · rcases lt_or_le 40 (userRecords store rec).length with h | h
    · have := (hperm3 h).length_eq
      rw [this, List.length_drop, hlen_s]
      omega
    · rw [hrt_le h]
      have : (store ++ [rec]).filter (fun r => decide (r.user_id = rec.user_id))
          = userRecords store rec := rfl
      rw [this]
      omega
  · have hsorted : List.Pairwise
        (fun a b : HistoryRecord => decide (a.timestamp ≤ b.timestamp) = true)
        (sortedUserRecords store rec) :=
      List.sorted_mergeSort
        (by intro a b c hab hbc; simp only [decide_eq_true_eq] at *; omega)
        (by intro a b; simp only [Bool.or_eq_true, decide_eq_true_eq]; exact le_total _ _)
        (userRecords store rec)
    have hsorted' : List.Sorted
        (fun a b : HistoryRecord => a.timestamp ≤ b.timestamp)
        (sortedUserRecords store rec) :=
      hsorted.imp (fun h => of_decide_eq_true h)
    intro x hx y hy
    exact hsorted'.rel_of_mem_take_of_mem_drop hx hy

/-- C4 witness: 40 records for user "u" plus a 41st; ids are distinct, and
after the insert-and-trim exactly 40 records remain for the user. -/
theorem claim_C4_witness :
    (((List.range 40).map wrec ++ [wrec 100]).map HistoryRecord.rid).Nodup ∧
    ((recordAndTrim ((List.range 40).map wrec) (wrec 100)).filter
        (fun r => decide (r.user_id = (wrec 100).user_id))).length = 40 := by
  have hnd : (((List.range 40).map wrec ++ [wrec 100]).map HistoryRecord.rid).Nodup := by
    decide
  have h := claim_C4_history_bound ((List.range 40).map wrec) (wrec 100) hnd
  refine ⟨hnd, ?_⟩
  have hlen : (userRecords ((List.range 40).map wrec) (wrec 100)).length = 41 := by
    decide
  rw [h.1, hlen]
  rfl

theorem dist2_cast (f : Features) (tv te : ℚ) :
    ((dist2 f tv te : ℚ) : ℝ)
      = ((f.valence : ℝ) - (tv : ℝ)) ^ 2 + ((f.energy : ℝ) - (te : ℝ)) ^ 2 := by
  unfold dist2
  push_cast
  ring

theorem distR_mono {f g : Features} {tv te : ℚ}
    (h : dist2 f tv te ≤ dist2 g tv te) : distR f tv te ≤ distR g tv te := by
  unfold distR
  rw [← dist2_cast, ← dist2_cast]
  exact Real.sqrt_le_sqrt (by exact_mod_cast h)

theorem sortedOf_perm (F : String → Option Features) (tracks : List Track)
    (tv te : ℚ) : (sortedOf F tracks tv te).Perm (weightedOf F tracks) :=
  List.mergeSort_perm _ _

theorem sortedOf_pairwise (F : String → Option Features) (tracks : List Track)
    (tv te : ℚ) :
    List.Sorted (fun a b : Track × Features => dist2 a.2 tv te ≤ dist2 b.2 tv te)
      (sortedOf F tracks tv te) := by
  have h := @List.sorted_mergeSort (Track × Features)
    (fun a b => decide (dist2 a.2 tv te ≤ dist2 b.2 tv te))
    (by intro a b c hab hbc; simp only [decide_eq_true_eq] at *; linarith)
    (by intro a b; simp only [Bool.or_eq_true, decide_eq_true_eq]; exact le_total _ _)
    (weightedOf F tracks)
  exact h.imp (fun hx => of_decide_eq_true hx)

theorem take_ne_nil_of_ne_nil {α : Type} {l : List α} (h : l ≠ []) :
    l.take 5 ≠ [] := by
  intro h0
  rw [List.take_eq_nil_iff] at h0
  rcases h0 with h0 | h0
  · exact absurd h0 (by norm_num)
  · exact h h0

/-- C2 amended: in slider mode (no free text) with a non-empty candidate list,
the scorer pairs each candidate having known audio features with its Euclidean
distance to the mood target, drops featureless candidates, sorts ascending by
distance (the first five of the sorted list are at distance no greater than all
later entries), and the selection is a random choice among those first five —
each of them reachable by some draw, and nothing outside them selectable; when
no candidate has features, the selection is a random choice among the first
five raw candidates. A free-text request bypasses the scorer entirely: the
selection is a random choice among the first five raw candidates, with
features fetched only for the chosen track (defaulting to (0.5, 0.5)). -/
theorem claim_C2_amended (tracks : List Track) (F : String → Option Features)
    (tv te : ℚ) (rChoice : ℕ) (htr : tracks ≠ []) :
    (weightedOf F tracks ≠ [] →
      ∃ p ∈ (sortedOf F tracks tv te).take 5,
        selectBestMatch "" tracks F tv te rChoice = some (p.1, some p.2)) ∧
    (∀ p ∈ (sortedOf F tracks tv te).take 5, ∀ q ∈ (sortedOf F tracks tv te).drop 5,
      distR p.2 tv te ≤ distR q.2 tv te) ∧
    (sortedOf F tracks tv te).Perm (weightedOf F tracks) ∧
    (weightedOf F tracks = [] →
      ∃ tk ∈ tracks.take 5, selectBestMatch "" tracks F tv te rChoice = some (tk, none)) ∧
    (∀ p ∈ (sortedOf F tracks tv te).take 5, weightedOf F tracks ≠ [] →
      ∃ r, selectBestMatch "" tracks F tv te r = some (p.1, some p.2)) ∧
    (weightedOf F tracks = [] → ∀ tk ∈ tracks.take 5,
      ∃ r, selectBestMatch "" tracks F tv te r = some (tk, none)) ∧
    (∀ t, t ≠ "" → ∃ tk ∈ tracks.take 5,
      selectBestMatch t tracks F tv te rChoice
        = some (tk, some ((F tk.id).getD { valence := 1/2, energy := 1/2 }))) := by
  refine ⟨?_, ?_, sortedOf_perm F tracks tv te, ?_, ?_, ?_, ?_⟩
  · intro hw
    have hsne : sortedOf F tracks tv te ≠ [] := by
      intro h0
      apply hw
      have hp := sortedOf_perm F tracks tv te
      rw [h0] at hp
      exact (hp.symm).eq_nil
    obtain ⟨p, hps, hpm⟩ := pyChoice_isSome _ rChoice (take_ne_nil_of_ne_nil hsne)
    refine ⟨p, hpm, ?_⟩
    unfold selectBestMatch
    simp [hw, hps]
  · intro p hp q hq
    exact distR_mono ((sortedOf_pairwise F tracks tv te).rel_of_mem_take_of_mem_drop hp hq)
  · intro hw
    obtain ⟨tk, hts, htm⟩ := pyChoice_isSome _ rChoice (take_ne_nil_of_ne_nil htr)
    refine ⟨tk, htm, ?_⟩
    unfold selectBestMatch
    simp [hw, hts]
  · intro p hp hw
    obtain ⟨r, hr⟩ := pyChoice_surj hp
    refine ⟨r, ?_⟩
    unfold selectBestMatch
    simp [hw, hr]
  · intro hw tk htk
    obtain ⟨r, hr⟩ := pyChoice_surj htk
    refine ⟨r, ?_⟩
    unfold selectBestMatch
    simp [hw, hr]
  · intro t ht
    obtain ⟨tk, hts, htm⟩ := pyChoice_isSome _ rChoice (take_ne_nil_of_ne_nil htr)
    refine ⟨tk, htm, ?_⟩
    unfold selectBestMatch
    simp [ht, hts]

/-- C2 witness: the amended statement instantiated at the six concrete
candidates with target (0, 0) and draw 0. -/
theorem claim_C2_witness :
    (weightedOf exF exTracks ≠ [] →
      ∃ p ∈ (sortedOf exF exTracks 0 0).take 5,
        selectBestMatch "" exTracks exF 0 0 0 = some (p.1, some p.2)) ∧
    (∀ p ∈ (sortedOf exF exTracks 0 0).take 5, ∀ q ∈ (sortedOf exF exTracks 0 0).drop 5,
      distR p.2 0 0 ≤ distR q.2 0 0) ∧
    (sortedOf exF exTracks 0 0).Perm (weightedOf exF exTracks) ∧
    (weightedOf exF exTracks = [] →
      ∃ tk ∈ exTracks.take 5, selectBestMatch "" exTracks exF 0 0 0 = some (tk, none)) ∧
    (∀ p ∈ (sortedOf exF exTracks 0 0).take 5, weightedOf exF exTracks ≠ [] →
      ∃ r, selectBestMatch "" exTracks exF 0 0 r = some (p.1, some p.2)) ∧
    (weightedOf exF exTracks = [] → ∀ tk ∈ exTracks.take 5,
      ∃ r, selectBestMatch "" exTracks exF 0 0 r = some (tk, none)) ∧
    (∀ t, t ≠ "" → ∃ tk ∈ exTracks.take 5,
      selectBestMatch t exTracks exF 0 0 0
        = some (tk, some ((exF tk.id).getD { valence := 1/2, energy := 1/2 }))) :=
  claim_C2_amended exTracks exF 0 0 0 (by decide)

/-- C2 counterexample: a free-text request ("lofi") with the six concrete
candidates — all of them carrying features — is answered with track "T3",
whose distance 0.9 to the target is the largest of all six; "T3" is not among
the five smallest-distance entries, so the claim, quantified over every
recommendation request, fails on free-text requests (the code bypasses the
scorer there and draws from the first five raw candidates). -/
theorem claim_C2_counterexample :
    (spotify_recommend exCache 0 exBody exS2 exF 0 0 2 okWrite [] 0 0).1
      = .ok { name := "T3", artists := "A", spotify_url := "u",
              album_image := "img", preview_url := "p",
              match_info := some { valence := 0.9, energy := 0 } } ∧
    selectBestMatch "lofi" exTracks exF 0 0 2
      = some (ctrack "3", some { valence := 0.9, energy := 0 }) ∧
    ctrack "3" ∉ ((sortedOf exF exTracks 0 0).take 5).map Prod.fst := by
  have hw : weightedOf exF exTracks
      = [(ctrack "1", { valence := 0.1, energy := 0 }),
         (ctrack "2", { valence := 0.05, energy := 0 }),
         (ctrack "3", { valence := 0.9, energy := 0 }),
         (ctrack "4", { valence := 0.05, energy := 0 }),
         (ctrack "5", { valence := 0.2, energy := 0 }),
         (ctrack "6", { valence := 0.01, energy := 0 })] := rfl
  have hperm := sortedOf_perm exF exTracks 0 0
  refine ⟨?_, rfl, ?_⟩
  · have htok : (get_spotify_token exCache 0).1 = some "tok" := by
      unfold get_spotify_token exCache
      rw [if_pos (by norm_num)]
    unfold spotify_recommend
    rw [htok]
    rfl
  · intro hmem
    rw [List.mem_map] at hmem
    obtain ⟨p, hp5, hpfst⟩ := hmem
    have hpw : p ∈ weightedOf exF exTracks :=
      hperm.mem_iff.mp (List.mem_of_mem_take hp5)
    have hpeq : p = (ctrack "3", { valence := 0.9, energy := 0 }) := by
      rw [hw] at hpw
      simp only [List.mem_cons, List.not_mem_nil, or_false] at hpw
      rcases hpw with h | h | h | h | h | h
      · rw [h] at hpfst; exact absurd hpfst (by decide)
      · rw [h] at hpfst; exact absurd hpfst (by decide)
      · exact h
      · rw [h] at hpfst; exact absurd hpfst (by decide)
      · rw [h] at hpfst; exact absurd hpfst (by decide)
      · rw [h] at hpfst; exact absurd hpfst (by decide)
    rw [hpeq] at hp5
    have hlen : (sortedOf exF exTracks 0 0).length = 6 := by
      rw [hperm.length_eq, hw]
      rfl
    have hdropne : (sortedOf exF exTracks 0 0).drop 5 ≠ [] := by
      intro h0
      have hl := congrArg List.length h0
      rw [List.length_drop, hlen] at hl
      exact absurd hl (by norm_num)
    obtain ⟨q, hq⟩ := List.exists_mem_of_ne_nil _ hdropne
    have hqw : q ∈ weightedOf exF exTracks :=
      hperm.mem_iff.mp (List.mem_of_mem_drop hq)
    have hrel := (sortedOf_pairwise exF exTracks 0 0).rel_of_mem_take_of_mem_drop hp5 hq
    have hnodup_s : (sortedOf exF exTracks 0 0).Nodup := by
      refine (hperm.nodup_iff).mpr ?_
      rw [hw]
      decide
    rw [hw] at hqw
    simp only [List.mem_cons, List.not_mem_nil, or_false] at hqw
    rcases hqw with h | h | h | h | h | h
    · rw [h] at hrel
      norm_num [dist2] at hrel
    · rw [h] at hrel
      norm_num [dist2] at hrel
    · have htd := List.take_append_drop 5 (sortedOf exF exTracks 0 0)
      rw [← htd, List.nodup_append] at hnodup_s
      rw [h] at hq
      exact hnodup_s.2.2 hp5 hq
    · rw [h] at hrel
      norm_num [dist2] at hrel
    · rw [h] at hrel
      norm_num [dist2] at hrel
    · rw [h] at hrel
      norm_num [dist2] at hrel

end Moodify
